/-
  Verification of the prediction-and-recommendation orchestration pipeline of the
  vegetable-recognition app (api-gateway).

  The JavaScript sources embedded here:
    - llm.js (shown in README.md): getLLMRecommendation, parseRecommendation,
      getDefaultRecommendation, getFallbackRecommendation
    - middleware/errorHandler.js (shown in README.md): errorHandler
    - index.js: multer upload limits and the error-middleware chain
    - handlers/predict.js: predictHandler
    - handlers/history.js: getHistory, deleteHistory
    - db.js: savePrediction, getPredictions, deletePrediction

  Modelling conventions:
    - JavaScript values flowing out of JSON.parse are modelled by the inductive
      type `Json` (numbers as Int; the placeholder/shape logic under scrutiny
      never does numeric arithmetic).
    - The raw-text preprocessing done by parseRecommendation (stripping markdown
      fences, the /\x7b[\s\S]*\x7d/ regex match, JSON.parse) is abstracted to an
      `Option Json` input: `none` models "no JSON found or JSON.parse threw",
      `some j` models a successfully extracted JSON value.  Every claim below
      quantifies at the level of the parsed JSON value.
    - JavaScript exceptions inside the placeholder check (e.g. calling
      toLowerCase on a non-string) are modelled with `Except Unit`.
    - Network and database effects are modelled by explicit outcome parameters
      (`LLMOutcome`, `MLOutcome`, `PersistOutcome`) fed to the handler.
-/
import Mathlib

namespace VegApp

/-! ## JavaScript value model -/

/-- A JSON value as produced by `JSON.parse` (numbers modelled as `Int`). -/
inductive Json where
  | str (s : String)
  | num (n : Int)
  | bool (b : Bool)
  | null
  | arr (elems : List Json)
  | obj (fields : List (String × Json))

/-- JavaScript `arr.includes('XX')`: SameValueZero comparison against the
    string primitive `"XX"`, which only a string element can equal. -/
def arrHasXX (xs : List Json) : Bool :=
  xs.any (fun x =>
    match x with
    | .str s => s == "XX"
    | _ => false)

/-- JavaScript truthiness of a value. -/
def Json.truthy : Json → Bool
  | .str s => s ≠ ""
  | .num n => n ≠ 0
  | .bool b => b
  | .null => false
  | .arr _ => true
  | .obj _ => true

/-- JavaScript property access `x.k`: defined only on objects (the keys the
    code accesses — recipes, nutrition, storageTips, calories, info, vitamins,
    benefits — are not built-in properties of strings/arrays/numbers);
    `none` models `undefined`. -/
def Json.get : Json → String → Option Json
  | .obj fields, k => fields.lookup k
  | _, _ => none

/-- Truthiness of a possibly-undefined value (`undefined` is falsy). -/
def optTruthy : Option Json → Bool
  | none => false
  | some j => j.truthy

/-! ## String helpers (JavaScript `includes` / `toLowerCase`) -/

/-- Whether `pat` occurs at the start of `l` (character lists). -/
def charsLead : List Char → List Char → Bool
  | [], _ => true
  | _ :: _, [] => false
  | a :: as_, b :: bs => a == b && charsLead as_ bs

/-- Whether `pat` occurs as a contiguous substring of `l` (character lists). -/
def charsSub (pat : List Char) : List Char → Bool
  | [] => charsLead pat []
  | c :: rest => charsLead pat (c :: rest) || charsSub pat rest

/-- JavaScript `s.includes(pat)` for strings. -/
def strIncludes (s pat : String) : Bool :=
  charsSub pat.data s.data

/-- JavaScript `s.startsWith(pat)` for strings. -/
def strStarts (s pat : String) : Bool :=
  charsLead pat.data s.data

/-- ASCII lowercasing of one character (JavaScript `toLowerCase`; the markers
    the code scans for are ASCII). -/
def lowerChar (c : Char) : Char :=
  if 65 ≤ c.toNat && c.toNat ≤ 90 then Char.ofNat (c.toNat + 32) else c

/-- JavaScript `s.toLowerCase()`. -/
def strLower (s : String) : String :=
  ⟨s.data.map lowerChar⟩

mutual
/-- JavaScript `String(x)` conversion; arrays stringify as their elements
    joined by commas with `null` rendered as the empty string. -/
def jsToString : Json → String
  | .str s => s
  | .num n => toString n
  | .bool b => if b then "true" else "false"
  | .null => "null"
  | .arr xs => jsArrToString xs
  | .obj _ => "[object Object]"

def jsArrToString : List Json → String
  | [] => ""
  | [j] => jsEltToString j
  | j :: rest => jsEltToString j ++ "," ++ jsArrToString rest

def jsEltToString : Json → String
  | .null => ""
  | .str s => s
  | .num n => toString n
  | .bool b => if b then "true" else "false"
  | .arr xs => jsArrToString xs
  | .obj _ => "[object Object]"
end

/-! ## Recommendation values (llm.js) -/

/-- The object shape returned by every path of `getLLMRecommendation`:
    `\x7b recipes, nutrition, storageTips \x7d`.  `recipes` holds the JSON array
    elements (or the wrapped bare value), `nutrition` the JSON value passed
    through, `storageTips` the result of the `String(...)` coercion. -/
structure Recommendation where
  recipes : List Json
  nutrition : Json
  storageTips : String

/-- `getFallbackRecommendation` from llm.js (also duplicated in predict.js). -/
def getFallbackRecommendation : Recommendation :=
  { recipes := [.str "Rekomendasi tidak tersedia saat ini"]
    nutrition := .obj [("info", .str "Informasi nutrisi tidak tersedia")]
    storageTips := "Simpan di tempat sejuk dan kering" }

/-- Helper to build a catalog nutrition object from the three fields. -/
def mkNutrition (calories : String) (vitamins benefits : List String) : Json :=
  .obj [("calories", .str calories),
        ("vitamins", .arr (vitamins.map .str)),
        ("benefits", .arr (benefits.map .str))]

/-- The `defaults` table of `getDefaultRecommendation` in llm.js: the static
    catalog of curated recommendations, keyed by the canonical English label. -/
def catalogEntries : List (String × Recommendation) :=
  [("Bean",
    { recipes := [.str "Tumis Buncis Bawang Putih", .str "Sayur Asem Buncis", .str "Oseng Buncis Tempe"]
      nutrition := mkNutrition "31 kkal/100g" ["Vitamin C", "Vitamin K", "Vitamin A"]
        ["Kaya serat", "Baik untuk pencernaan", "Menjaga kesehatan tulang"]
      storageTips := "Simpan di kulkas dalam kantong plastik berlubang, tahan 5-7 hari" }),
   ("Carrot",
    { recipes := [.str "Sup Wortel Ayam", .str "Tumis Wortel Telur", .str "Jus Wortel Jeruk"]
      nutrition := mkNutrition "41 kkal/100g" ["Vitamin A", "Beta Karoten", "Vitamin K"]
        ["Baik untuk kesehatan mata", "Kaya antioksidan", "Meningkatkan imunitas"]
      storageTips := "Simpan di kulkas tanpa daun, tahan 2-3 minggu" }),
   ("Broccoli",
    { recipes := [.str "Tumis Brokoli Bawang Putih", .str "Sup Krim Brokoli", .str "Brokoli Saus Tiram"]
      nutrition := mkNutrition "34 kkal/100g" ["Vitamin C", "Vitamin K", "Folat"]
        ["Kaya antioksidan", "Mencegah kanker", "Baik untuk jantung"]
      storageTips := "Simpan di kulkas dalam kantong plastik, tahan 3-5 hari" }),
   ("Cabbage",
    { recipes := [.str "Tumis Kol Telur", .str "Sayur Sop Kol", .str "Asinan Kol"]
      nutrition := mkNutrition "25 kkal/100g" ["Vitamin C", "Vitamin K", "Vitamin B6"]
        ["Rendah kalori", "Baik untuk pencernaan", "Kaya serat"]
      storageTips := "Simpan di kulkas utuh, tahan 1-2 minggu" }),
   ("Capsicum",
    { recipes := [.str "Tumis Paprika Warna-warni", .str "Paprika Isi Daging", .str "Salad Paprika Segar"]
      nutrition := mkNutrition "31 kkal/100g" ["Vitamin C", "Vitamin A", "Vitamin B6"]
        ["Kaya antioksidan", "Meningkatkan imunitas", "Baik untuk kulit"]
      storageTips := "Simpan di kulkas dalam kantong plastik, tahan 1-2 minggu" }),
   ("Cauliflower",
    { recipes := [.str "Tumis Kembang Kol", .str "Sup Kembang Kol", .str "Kembang Kol Goreng Tepung"]
      nutrition := mkNutrition "25 kkal/100g" ["Vitamin C", "Vitamin K", "Folat"]
        ["Rendah kalori", "Kaya serat", "Baik untuk otak"]
      storageTips := "Simpan di kulkas dalam kantong plastik, tahan 4-7 hari" }),
   ("Cucumber",
    { recipes := [.str "Acar Timun", .str "Salad Timun Segar", .str "Timun Serut Sambal"]
      nutrition := mkNutrition "15 kkal/100g" ["Vitamin K", "Vitamin C", "Kalium"]
        ["Menghidrasi tubuh", "Rendah kalori", "Menyegarkan"]
      storageTips := "Simpan di kulkas, tahan 1 minggu" }),
   ("Tomato",
    { recipes := [.str "Sambal Tomat", .str "Sup Tomat", .str "Tumis Tomat Telur"]
      nutrition := mkNutrition "18 kkal/100g" ["Vitamin C", "Vitamin A", "Likopen"]
        ["Kaya antioksidan", "Baik untuk jantung", "Menjaga kesehatan kulit"]
      storageTips := "Simpan di suhu ruang jika belum matang, di kulkas jika sudah matang" }),
   ("Potato",
    { recipes := [.str "Kentang Goreng", .str "Perkedel Kentang", .str "Sup Kentang"]
      nutrition := mkNutrition "77 kkal/100g" ["Vitamin C", "Vitamin B6", "Kalium"]
        ["Sumber karbohidrat", "Mengenyangkan", "Kaya kalium"]
      storageTips := "Simpan di tempat gelap dan sejuk, hindari kulkas" }),
   ("Pumpkin",
    { recipes := [.str "Kolak Labu", .str "Sup Labu Kuning", .str "Tumis Labu"]
      nutrition := mkNutrition "26 kkal/100g" ["Vitamin A", "Vitamin C", "Beta Karoten"]
        ["Baik untuk mata", "Kaya serat", "Meningkatkan imunitas"]
      storageTips := "Simpan utuh di tempat sejuk, tahan berminggu-minggu" }),
   ("Radish",
    { recipes := [.str "Acar Lobak", .str "Sup Lobak", .str "Tumis Lobak"]
      nutrition := mkNutrition "16 kkal/100g" ["Vitamin C", "Folat", "Kalium"]
        ["Rendah kalori", "Baik untuk pencernaan", "Detoksifikasi"]
      storageTips := "Simpan di kulkas tanpa daun, tahan 1-2 minggu" }),
   ("Brinjal",
    { recipes := [.str "Terong Balado", .str "Terong Goreng", .str "Tumis Terong"]
      nutrition := mkNutrition "25 kkal/100g" ["Vitamin B1", "Vitamin B6", "Kalium"]
        ["Rendah kalori", "Kaya serat", "Baik untuk jantung"]
      storageTips := "Simpan di kulkas, tahan 4-5 hari" }),
   ("Bitter_Gourd",
    { recipes := [.str "Tumis Pare", .str "Pare Isi", .str "Keripik Pare"]
      nutrition := mkNutrition "17 kkal/100g" ["Vitamin C", "Vitamin A", "Folat"]
        ["Menurunkan gula darah", "Kaya antioksidan", "Baik untuk diabetes"]
      storageTips := "Simpan di kulkas dalam kantong plastik, tahan 4-5 hari" }),
   ("Bottle_Gourd",
    { recipes := [.str "Sayur Labu Air", .str "Tumis Labu Air", .str "Sup Labu Air"]
      nutrition := mkNutrition "14 kkal/100g" ["Vitamin C", "Vitamin B", "Kalsium"]
        ["Rendah kalori", "Menghidrasi", "Baik untuk pencernaan"]
      storageTips := "Simpan di kulkas, tahan 1-2 minggu" }),
   ("Papaya",
    { recipes := [.str "Tumis Pepaya Muda", .str "Sup Pepaya", .str "Salad Pepaya"]
      nutrition := mkNutrition "43 kkal/100g" ["Vitamin C", "Vitamin A", "Folat"]
        ["Baik untuk pencernaan", "Kaya enzim papain", "Meningkatkan imunitas"]
      storageTips := "Simpan di suhu ruang sampai matang, lalu di kulkas" })]

/-- `getDefaultRecommendation(vegetableName)` from llm.js:
    `defaults[vegetableName] || getFallbackRecommendation()`. -/
def getDefaultRecommendation (vegetableName : String) : Recommendation :=
  (catalogEntries.lookup vegetableName).getD getFallbackRecommendation

/-! ## Response parsing (parseRecommendation in llm.js) -/

/-- The `parsed.recipes.some(r => r.toLowerCase().includes('resep 1') ||
    r.toLowerCase().includes('nama resep'))` scan.  Evaluated left to right;
    calling `toLowerCase` on a non-string element throws (`Except.error`),
    exactly as `Array.prototype.some` aborts when its callback throws. -/
def recipesPlaceholderScan : List Json → Except Unit Bool
  | [] => .ok false
  | .str s :: rest =>
      if strIncludes (strLower s) "resep 1" || strIncludes (strLower s) "nama resep" then
        .ok true
      else
        recipesPlaceholderScan rest
  | _ :: _ => .error ()

/-- The `parsed.nutrition.calories && parsed.nutrition.calories.includes('XX')`
    test: falsy or absent `calories` short-circuits to false; `includes` exists
    on strings (substring test) and arrays (element test) and throws on other
    truthy values. -/
def caloriesPlaceholderScan (nutrition : Json) : Except Unit Bool :=
  match nutrition.get "calories" with
  | none => .ok false
  | some c =>
      if c.truthy then
        match c with
        | .str s => .ok (strIncludes s "XX")
        | .arr xs => .ok (arrHasXX xs)
        | _ => .error ()
      else
        .ok false

/-- The whole `isPlaceholder` expression of parseRecommendation, with
    JavaScript short-circuit evaluation and exception propagation. -/
def isPlaceholderScan (recipes nutrition : Json) : Except Unit Bool := do
  let first ←
    match recipes with
    | .arr xs => recipesPlaceholderScan xs
    | _ => pure false
  if first then pure true else caloriesPlaceholderScan nutrition

/-- The accepting path of `parseRecommendation` on an extracted JSON value:
    `some` is the object built on success, `none` is every path that falls
    through to `getDefaultRecommendation` (shape check failed, placeholder
    detected, or an exception was thrown and caught). -/
def parseBody (parsed : Json) : Option Recommendation :=
  if optTruthy (parsed.get "recipes") && optTruthy (parsed.get "nutrition") &&
      optTruthy (parsed.get "storageTips") then
    match parsed.get "recipes", parsed.get "nutrition", parsed.get "storageTips" with
    | some r, some n, some st =>
        match isPlaceholderScan r n with
        | .error _ => none
        | .ok true => none
        | .ok false =>
            some { recipes := match r with | .arr xs => xs | _ => [r]
                   nutrition := n
                   storageTips := jsToString st }
    | _, _, _ => none
  else
    none

def parseAttempt : Option Json → Option Recommendation
  | none => none
  | some parsed => parseBody parsed

/-- `parseRecommendation(response, vegetableName)` from llm.js, at the level of
    the extracted JSON value (`none` = no JSON found / JSON.parse threw):
    every non-accepting path returns `getDefaultRecommendation(vegetableName)`. -/
def parseRecommendation (extracted : Option Json) (vegetableName : String) : Recommendation :=
  (parseAttempt extracted).getD (getDefaultRecommendation vegetableName)

/-! ## getLLMRecommendation (llm.js) -/

/-- Outcome of one generation-backend call (Groq or Ollama — the two providers
    differ only in transport; both feed `parseRecommendation`):
    `transportError` models a thrown axios error (timeout, refusal, connection
    error, malformed envelope), `success extracted` a transport success whose
    raw text yielded `extracted` after fence stripping, brace matching and
    JSON.parse. -/
inductive LLMOutcome where
  | transportError
  | success (extracted : Option Json)

/-- `getLLMRecommendation(vegetableName)` from llm.js, as a function of the
    backend outcome. -/
def getLLMRecommendation (vegetableName : String) (o : LLMOutcome) : Recommendation :=
  if vegetableName == "Unknown vegetable" then
    getFallbackRecommendation
  else
    match o with
    | .transportError => getDefaultRecommendation vegetableName
    | .success extracted => parseRecommendation extracted vegetableName

/-- Instrumented variant of `getLLMRecommendation`: also reports whether a
    network (generation) call was issued and whether the catalog
    (`getDefaultRecommendation`) was consulted.  Mirrors the source branch for
    branch; the first component always agrees with `getLLMRecommendation`
    (lemma `getLLMRecommendationInstr_fst`). -/
def getLLMRecommendationInstr (vegetableName : String) (o : LLMOutcome) :
    Recommendation × Bool × Bool :=
  if vegetableName == "Unknown vegetable" then
    (getFallbackRecommendation, false, false)
  else
    match o with
    | .transportError => (getDefaultRecommendation vegetableName, true, true)
    | .success extracted =>
        match parseAttempt extracted with
        | some r => (r, true, false)
        | none => (getDefaultRecommendation vegetableName, true, true)

/-! ## Errors and the gateway error-middleware chain (index.js, errorHandler.js) -/

/-- A thrown JavaScript error as the middleware sees it. -/
structure JsErr where
  name : String := "Error"
  code : Option String := none
  message : String
  isMulterError : Bool := false

/-- A JSON HTTP response: status code plus body. -/
inductive ResBody where
  | err (msg : String)
  | predictOk (id : String) (predictedClass : String) (confidence : Json) (top3 : Json)
      (recommendation : Recommendation) (createdAt : Nat)
  | deleteOk (id : String)
  | historyList (rows : List String)

structure HttpResponse where
  status : Nat
  body : ResBody

/-- `errorHandler` from middleware/errorHandler.js.  `production` models
    `process.env.NODE_ENV === 'production'`.  The `err.code &&
    err.code.startsWith('23')` guard treats an empty code as falsy. -/
def errorHandler (e : JsErr) (production : Bool) : HttpResponse :=
  if e.name == "ValidationError" then ⟨400, .err e.message⟩
  else if e.code == some "ECONNREFUSED" then ⟨502, .err "Service unavailable"⟩
  else if e.code == some "ECONNABORTED" || strIncludes e.message "timeout" then
    ⟨504, .err "Request timeout"⟩
  else if (match e.code with
           | some c => c ≠ "" && strStarts c "23"
           | none => false) then ⟨400, .err "Database constraint violation"⟩
  else if e.code == some "42P01" then ⟨500, .err "Database table not found"⟩
  else ⟨500, .err (if production then "Internal server error" else e.message)⟩

/-- `errorHandler` as a middleware: it sends a response on every branch and
    never calls `next`, so it always yields `some`. -/
def errorHandlerMw (production : Bool) (e : JsErr) : Option HttpResponse :=
  some (errorHandler e production)

/-- The anonymous multer error middleware at the bottom of index.js:
    413 for `LIMIT_FILE_SIZE`, 400 for other multer errors, `next(err)`
    (i.e. `none`) for non-multer errors. -/
def multerErrorMw (e : JsErr) : Option HttpResponse :=
  if e.isMulterError then
    if e.code == some "LIMIT_FILE_SIZE" then some ⟨413, .err "File size exceeds 10MB limit"⟩
    else some ⟨400, .err e.message⟩
  else none

/-- Express error dispatch for this app.  index.js registers `errorHandler`
    BEFORE the multer middleware (`app.use(errorHandler)` comes first), so
    every error is offered to `errorHandler` first; only if it declined would
    the multer middleware and then the Express default (500) run. -/
def gatewayErrorDispatch (e : JsErr) (production : Bool) : HttpResponse :=
  (((errorHandlerMw production e).orElse (fun _ => multerErrorMw e))).getD
    ⟨500, .err e.message⟩

/-! ## Upload constraints (multer configuration in index.js) -/

structure IncomingFile where
  size : Nat
  mimetype : String
  originalname : String

def allowedTypes : List String := ["image/jpeg", "image/png", "image/webp"]

/-- The error `fileFilter` passes to `cb` for a disallowed mime type: a plain
    `Error`, not a `MulterError`. -/
def unsupportedFormatError : JsErr :=
  { message := "Unsupported image format. Allowed: JPEG, PNG, WebP" }

/-- The `MulterError` raised when `limits.fileSize` (10MB) is exceeded. -/
def fileSizeLimitError : JsErr :=
  { name := "MulterError", code := some "LIMIT_FILE_SIZE",
    message := "File too large", isMulterError := true }

/-- The multer checks applied while parsing the multipart body, before
    `predictHandler` runs: `fileFilter` (mime type) and `limits.fileSize`. -/
def multerCheck (f : IncomingFile) : Option JsErr :=
  if ¬ allowedTypes.contains f.mimetype then some unsupportedFormatError
  else if f.size > 10 * 1024 * 1024 then some fileSizeLimitError
  else none

/-! ## predictHandler (handlers/predict.js) -/

/-- The ML service's response body `\x7b predicted_class, confidence, top_3 \x7d`. -/
structure Prediction where
  predicted_class : String
  confidence : Json
  top_3 : Json

/-- Outcome of the axios call to the ML service. -/
inductive MLOutcome where
  | error (e : JsErr)
  | ok (p : Prediction)

/-- Outcome of `savePrediction`: the saved record's id and timestamp (from the
    database row, or from the in-memory mock when no pool is configured), or a
    thrown database error. -/
inductive PersistOutcome where
  | ok (id : String) (createdAt : Nat)
  | err (e : JsErr)

/-- Configuration read by predict.js: `SKIP_LLM === 'true' || !OLLAMA_URL`
    collapses to `skipLLM`; `NODE_ENV` to `production`. -/
structure GatewayEnv where
  skipLLM : Bool
  production : Bool

/-- `predictHandler` from handlers/predict.js.  A rethrown ML error and a
    thrown `savePrediction` error are caught by the outer `try` and passed to
    `next(error)`, i.e. to `gatewayErrorDispatch`. -/
def predictHandler (file : Option IncomingFile) (ml : MLOutcome) (llmo : LLMOutcome)
    (persist : PersistOutcome) (env : GatewayEnv) : HttpResponse :=
  match file with
  | none => ⟨400, .err "No image file provided"⟩
  | some _ =>
      match ml with
      | .error e =>
          if e.code == some "ECONNREFUSED" then ⟨502, .err "ML service unavailable"⟩
          else gatewayErrorDispatch e env.production
      | .ok pred =>
          let recommendation :=
            if env.skipLLM then getFallbackRecommendation
            else getLLMRecommendation pred.predicted_class llmo
          match persist with
          | .err e => gatewayErrorDispatch e env.production
          | .ok id createdAt =>
              ⟨200, .predictOk id pred.predicted_class pred.confidence pred.top_3
                      recommendation createdAt⟩

/-- The POST /api/predict route: multer runs first; a multer/fileFilter error
    aborts into the error-middleware chain and `predictHandler` never runs.
    The boolean reports whether the ML backend call was attempted. -/
def predictRoute (file : Option IncomingFile) (ml : MLOutcome) (llmo : LLMOutcome)
    (persist : PersistOutcome) (env : GatewayEnv) : HttpResponse × Bool :=
  match file with
  | none => (predictHandler none ml llmo persist env, false)
  | some f =>
      match multerCheck f with
      | some e => (gatewayErrorDispatch e env.production, false)
      | none => (predictHandler (some f) ml llmo persist env, true)

/-! ## History store (db.js) and history handlers (handlers/history.js) -/

/-- A row of the `predictions` table. -/
structure DbRow where
  id : String
  image_filename : String
  image_path : String
  predicted_class : String
  confidence : Json
  top_3_predictions : Json
  llm_recommendation : Option Recommendation
  created_at : Nat

/-- Whether a pool is configured (`DATABASE_URL || DB_HOST`): `disabled` models
    `pool === null`, `enabled store` the database contents. -/
inductive DbMode where
  | disabled
  | enabled (store : List DbRow)

def insertByCreatedDesc (r : DbRow) : List DbRow → List DbRow
  | [] => [r]
  | x :: xs => if x.created_at ≤ r.created_at then r :: x :: xs else x :: insertByCreatedDesc r xs

/-- `ORDER BY created_at DESC` over the store. -/
def sortByCreatedDesc : List DbRow → List DbRow
  | [] => []
  | x :: xs => insertByCreatedDesc x (sortByCreatedDesc xs)

/-- `getPredictions(limit, offset)` from db.js: `[]` without a pool, otherwise
    the `SELECT ... ORDER BY created_at DESC LIMIT $1 OFFSET $2` rows. -/
def getPredictions : DbMode → Nat → Nat → List DbRow
  | .disabled, _, _ => []
  | .enabled store, limit, offset => ((sortByCreatedDesc store).drop offset).take limit

/-- `deletePrediction(id)` from db.js.  Without a pool it returns the mock
    object `\x7b id \x7d` (so the handler's `deleted.id` is the requested id);
    with a pool, `DELETE ... WHERE id = $1 RETURNING *` yields the removed
    row's id, or `none` (`rows[0]` undefined) if no row matched.  The second
    component is the store after the statement. -/
def deletePrediction : DbMode → String → Option String × DbMode
  | .disabled, id => (some id, .disabled)
  | .enabled store, id =>
      match store.find? (fun r => r.id == id) with
      | some row => (some row.id, .enabled (store.filter (fun r => r.id != id)))
      | none => (none, .enabled store)

/-- A hexadecimal digit, upper or lower case (the regex's `[0-9a-f]` under
    the `i` flag). -/
def isHexChar (c : Char) : Bool :=
  (48 ≤ c.toNat && c.toNat ≤ 57) || (97 ≤ c.toNat && c.toNat ≤ 102) ||
    (65 ≤ c.toNat && c.toNat ≤ 70)

/-- Split a character list on `-` (hyphens cannot be hex digits, so matching
    the anchored regex is equivalent to checking the hyphen-separated groups). -/
def splitOnDash (cs : List Char) (acc : List Char) : List (List Char) :=
  match cs with
  | [] => [acc.reverse]
  | c :: rest =>
      if c == '-' then acc.reverse :: splitOnDash rest []
      else splitOnDash rest (c :: acc)

/-- The UUID regex of handlers/history.js:
    8-4-4-4-12 hexadecimal digits, case-insensitive, anchored. -/
def isUuid (s : String) : Bool :=
  let parts := splitOnDash s.data []
  parts.map (fun p => p.length) == [8, 4, 4, 4, 12] &&
    parts.all (fun p => p.all isHexChar)

/-- `getHistory` from handlers/history.js: always 200 with the (camelCase
    renaming of the) rows; here the body records the row ids in order. -/
def getHistory (mode : DbMode) (limit offset : Nat) : HttpResponse :=
  ⟨200, .historyList ((getPredictions mode limit offset).map (fun r => r.id))⟩

/-- `deleteHistory` from handlers/history.js.  Returns the response, the store
    afterwards, and whether any storage operation (`deletePrediction`) was
    invoked. -/
def deleteHistory (mode : DbMode) (id : String) : HttpResponse × DbMode × Bool :=
  if ¬ isUuid id then (⟨400, .err "Invalid ID format"⟩, mode, false)
  else
    match deletePrediction mode id with
    | (some deletedId, mode') => (⟨200, .deleteOk deletedId⟩, mode', true)
    | (none, mode') => (⟨404, .err "Prediction not found"⟩, mode', true)

/-! ## The §3 Recommendation invariant -/

/-- The structured nutrition shape: at least one of calories/vitamins/benefits. -/
def hasStructuredShape (n : Json) : Bool :=
  (n.get "calories").isSome || (n.get "vitamins").isSome || (n.get "benefits").isSome

/-- The degraded nutrition shape: the single `info` field. -/
def hasInfoShape (n : Json) : Bool :=
  (n.get "info").isSome

/-- The spec's §3 invariant on a Recommendation: exactly one of the two
    nutrition shapes, non-empty recipes, non-empty storageTips. -/
def recInvariant (r : Recommendation) : Bool :=
  !r.recipes.isEmpty &&
    (hasStructuredShape r.nutrition != hasInfoShape r.nutrition) &&
    r.storageTips != ""

/-! ## Supporting lemmas -/

theorem lookup_mem_snd {α β : Type} [BEq α] :
    ∀ {l : List (α × β)} {a : α} {b : β}, List.lookup a l = some b → b ∈ l.map Prod.snd := by
  intro l
  induction l with
  | nil => intro a b h; simp [List.lookup] at h
  | cons hd tl ih =>
      intro a b h
      obtain ⟨k, v⟩ := hd
      rw [List.lookup] at h
      by_cases hk : (a == k) = true
      · rw [hk] at h
        simp at h
        simp [h]
      · rw [Bool.not_eq_true] at hk
        rw [hk] at h
        simp only [List.map_cons, List.mem_cons]
        exact Or.inr (ih h)

/-- Every entry of the static catalog satisfies the §3 invariant. -/
theorem catalog_invariant : ∀ r ∈ catalogEntries.map Prod.snd, recInvariant r = true := by
  decide

theorem fallback_invariant : recInvariant getFallbackRecommendation = true := by
  decide

/-- Whatever label `getDefaultRecommendation` is asked for, the result (catalog
    entry or fallback) satisfies the §3 invariant. -/
theorem getDefault_invariant (name : String) :
    recInvariant (getDefaultRecommendation name) = true := by
  unfold getDefaultRecommendation
  cases h : List.lookup name catalogEntries with
  | none => exact fallback_invariant
  | some r => exact catalog_invariant r (lookup_mem_snd h)

/-- Unfolding lemma: unknown sentinel. -/
theorem getLLM_unknown (o : LLMOutcome) :
    getLLMRecommendation "Unknown vegetable" o = getFallbackRecommendation := rfl

/-- Unfolding lemma: known label, transport failure. -/
theorem getLLM_transport (name : String) (h : (name == "Unknown vegetable") = false) :
    getLLMRecommendation name .transportError = getDefaultRecommendation name := by
  simp only [getLLMRecommendation, h, Bool.false_eq_true, if_false]

/-- Unfolding lemma: known label, transport success. -/
theorem getLLM_success (name : String) (h : (name == "Unknown vegetable") = false)
    (ext : Option Json) :
    getLLMRecommendation name (.success ext) =
      (parseAttempt ext).getD (getDefaultRecommendation name) := by
  simp only [getLLMRecommendation, parseRecommendation, h, Bool.false_eq_true, if_false]

/-- The instrumented adapter agrees with the plain one on the returned value. -/
theorem getLLMRecommendationInstr_fst (name : String) (o : LLMOutcome) :
    (getLLMRecommendationInstr name o).1 = getLLMRecommendation name o := by
  by_cases h : (name == "Unknown vegetable") = true
  · have hname : name = "Unknown vegetable" := by
      exact eq_of_beq h
    subst hname
    cases o <;> rfl
  · rw [Bool.not_eq_true] at h
    cases o with
    | transportError =>
        rw [getLLM_transport name h]
        simp only [getLLMRecommendationInstr, h, Bool.false_eq_true, if_false]
    | success ext =>
        rw [getLLM_success name h ext]
        simp only [getLLMRecommendationInstr, h, Bool.false_eq_true, if_false]
        cases hp : parseAttempt ext <;> simp [hp]

/-! ## Claim C1 -/

/-- A transport-success payload whose JSON parses, has all three truthy
    top-level fields and no placeholder marker, but whose nutrition object has
    neither the structured shape nor the `info` shape. -/
def neitherShapeJson : Json :=
  .obj [("recipes", .arr [.str "Sup Wortel"]),
        ("nutrition", .obj [("protein", .str "1 g")]),
        ("storageTips", .str "Simpan di kulkas")]

/-- C1 counterexample: on the subject "Carrot" with a generation success whose
    payload carries a nutrition object with neither shape, getLLMRecommendation
    returns a Recommendation violating the §3 invariant (nutrition has neither
    the calories/vitamins/benefits shape nor the info shape). -/
theorem c1_invariant_counterexample :
    recInvariant (getLLMRecommendation "Carrot" (.success (some neitherShapeJson))) = false := by
  rfl

/-- C1 (amended): for every subject label and every generation-backend
    outcome, the returned Recommendation either satisfies the §3 invariant
    (exactly one nutrition shape, non-empty recipes, non-empty storageTips) —
    which is the case on every fallback path — or is the parser's accepted
    payload passed through verbatim, in which case the invariant holds only if
    the generated payload itself satisfies it. -/
theorem c1_invariant_or_passthrough (name : String) (o : LLMOutcome) :
    recInvariant (getLLMRecommendation name o) = true ∨
    ∃ ext r, o = .success ext ∧ parseAttempt ext = some r ∧
      getLLMRecommendation name o = r := by
  by_cases h : (name == "Unknown vegetable") = true
  · have hname : name = "Unknown vegetable" := eq_of_beq h
    subst hname
    rw [getLLM_unknown o]
    exact Or.inl fallback_invariant
  · rw [Bool.not_eq_true] at h
    cases o with
    | transportError =>
        rw [getLLM_transport name h]
        exact Or.inl (getDefault_invariant name)
    | success ext =>
        rw [getLLM_success name h ext]
        cases hp : parseAttempt ext with
        | none =>
            rw [Option.getD_none]
            exact Or.inl (getDefault_invariant name)
        | some r =>
            rw [Option.getD_some]
            exact Or.inr ⟨ext, r, rfl, hp, rfl⟩

/-! ## Claim C4 -/

/-- A generation-backend outcome rejected by the adapter: a transport failure
    (timeout, refusal, connection error), or a transport success whose text is
    not accepted by the parser (no JSON, invalid JSON, incomplete shape,
    placeholder, or an exception during the placeholder scan). -/
def rejectedOutcome (o : LLMOutcome) : Prop :=
  o = .transportError ∨ ∃ ext, o = .success ext ∧ parseAttempt ext = none

/-- C4: for every known (non-sentinel) subject label and every rejected
    generation outcome, getLLMRecommendation returns getDefaultRecommendation:
    the Catalog entry when one exists for the label, and the degraded fallback
    exactly when none exists. -/
theorem c4_rejected_gives_catalog_or_fallback (name : String) (o : LLMOutcome)
    (hname : name ≠ "Unknown vegetable") (hrej : rejectedOutcome o) :
    getLLMRecommendation name o = getDefaultRecommendation name ∧
    (∀ r, List.lookup name catalogEntries = some r → getLLMRecommendation name o = r) ∧
    (List.lookup name catalogEntries = none →
      getLLMRecommendation name o = getFallbackRecommendation) := by
  have hbeq : (name == "Unknown vegetable") = false := by
    simp [hname]
  have hmain : getLLMRecommendation name o = getDefaultRecommendation name := by
    rcases hrej with h | ⟨ext, hsucc, hnone⟩
    · rw [h, getLLM_transport name hbeq]
    · rw [hsucc, getLLM_success name hbeq ext, hnone, Option.getD_none]
  refine ⟨hmain, ?_, ?_⟩
  · intro r hr
    rw [hmain]
    unfold getDefaultRecommendation
    rw [hr]
    rfl
  · intro hnone
    rw [hmain]
    unfold getDefaultRecommendation
    rw [hnone]
    rfl

/-- C4 witness: a transport failure on "Carrot" yields the Carrot catalog
    entry, and on "Spinach" (absent from the catalog) the degraded fallback. -/
theorem c4_rejected_gives_catalog_or_fallback_witness :
    getLLMRecommendation "Carrot" .transportError = getDefaultRecommendation "Carrot" ∧
    getLLMRecommendation "Spinach" .transportError = getFallbackRecommendation :=
  ⟨(c4_rejected_gives_catalog_or_fallback "Carrot" .transportError (by decide) (Or.inl rfl)).1,
   (c4_rejected_gives_catalog_or_fallback "Spinach" .transportError (by decide)
     (Or.inl rfl)).2.2 (by rfl)⟩

/-! ## Claim C5 -/

/-- C5: on the unknown-subject sentinel, getLLMRecommendation short-circuits
    to the degraded fallback for every backend outcome, with no network call
    and no catalog lookup (instrumented flags both false); the fallback's
    nutrition has the `info` field and no `calories`/`vitamins`. -/
theorem c5_unknown_sentinel_short_circuit (o : LLMOutcome) :
    getLLMRecommendationInstr "Unknown vegetable" o = (getFallbackRecommendation, false, false) ∧
    getLLMRecommendation "Unknown vegetable" o = getFallbackRecommendation ∧
    (getFallbackRecommendation.nutrition.get "info").isSome = true ∧
    getFallbackRecommendation.nutrition.get "calories" = none ∧
    getFallbackRecommendation.nutrition.get "vitamins" = none :=
  ⟨rfl, rfl, rfl, rfl, rfl⟩

/-! ## Claim C6 -/

/-- If some element of the recipe array is a string containing the
    placeholder marker (after lowercasing), the recipe scan never returns
    `ok false`: it hits the marker, an earlier marker, or throws on an
    earlier non-string element. -/
theorem recipesScan_not_ok_false (xs : List Json)
    (h : ∃ s, Json.str s ∈ xs ∧ strIncludes (strLower s) "nama resep" = true) :
    recipesPlaceholderScan xs ≠ .ok false := by
  induction xs with
  | nil =>
      obtain ⟨s, hmem, _⟩ := h
      simp at hmem
  | cons hd tl ih =>
      obtain ⟨s, hmem, hinc⟩ := h
      cases hd with
      | str t =>
          by_cases hcond :
              (strIncludes (strLower t) "resep 1" || strIncludes (strLower t) "nama resep") = true
          · simp [recipesPlaceholderScan, hcond]
          · rcases List.mem_cons.mp hmem with heq | htl
            · exfalso
              apply hcond
              have hst : s = t := by injection heq
              rw [Bool.or_eq_true]
              exact Or.inr (hst ▸ hinc)
            · rw [Bool.not_eq_true] at hcond
              simp only [recipesPlaceholderScan, hcond, Bool.false_eq_true, if_false]
              exact ih ⟨s, htl, hinc⟩
      | num n => simp [recipesPlaceholderScan]
      | bool b => simp [recipesPlaceholderScan]
      | null => simp [recipesPlaceholderScan]
      | arr ys => simp [recipesPlaceholderScan]
      | obj fs => simp [recipesPlaceholderScan]

/-- A placeholder scan whose recipe part is not `ok false` makes the whole
    `isPlaceholder` expression throw or yield true. -/
theorem isPlaceholderScan_of_recipesScan (xs : List Json) (n : Json)
    (h : recipesPlaceholderScan xs ≠ .ok false) :
    isPlaceholderScan (.arr xs) n = .error () ∨ isPlaceholderScan (.arr xs) n = .ok true := by
  unfold isPlaceholderScan
  cases hE : recipesPlaceholderScan xs with
  | error e =>
      left
      cases e
      simp [hE, Bind.bind, Except.bind]
  | ok b =>
      cases b with
      | false => exact absurd hE h
      | true =>
          right
          simp [hE, Bind.bind, Except.bind, pure, Except.pure]

/-- Under the marker hypothesis, the parser never accepts. -/
theorem parseAttempt_none_of_marker (j : Json) (xs : List Json)
    (hrec : j.get "recipes" = some (.arr xs))
    (hmark : ∃ s, Json.str s ∈ xs ∧ strIncludes (strLower s) "nama resep" = true) :
    parseAttempt (some j) = none := by
  show parseBody j = none
  unfold parseBody
  rw [hrec]
  cases hn : j.get "nutrition" with
  | none => simp [optTruthy]
  | some n =>
      cases hst : j.get "storageTips" with
      | none => simp [optTruthy]
      | some st =>
          by_cases htr : (optTruthy (some (.arr xs)) && optTruthy (some n) &&
              optTruthy (some st)) = true
          · rw [if_pos htr]
            rcases isPlaceholderScan_of_recipesScan xs n
                (recipesScan_not_ok_false xs hmark) with hE | hE <;> simp [hE]
          · rw [if_neg htr]

/-- C6: for every parsed payload whose `recipes` field is an array in which
    some recipe string contains the marker "nama resep" (case-insensitively),
    and for every subject label, the parser rejects the payload and returns
    `getDefaultRecommendation` — the Catalog entry for the label, or the
    degraded fallback if the label has no Catalog entry — whatever the rest of
    the payload looks like. -/
theorem c6_nama_resep_always_rejected (j : Json) (name : String) (xs : List Json)
    (hrec : j.get "recipes" = some (.arr xs))
    (hmark : ∃ s, Json.str s ∈ xs ∧ strIncludes (strLower s) "nama resep" = true) :
    parseRecommendation (some j) name = getDefaultRecommendation name ∧
    (∀ r, List.lookup name catalogEntries = some r →
      parseRecommendation (some j) name = r) ∧
    (List.lookup name catalogEntries = none →
      parseRecommendation (some j) name = getFallbackRecommendation) := by
  have hmain : parseRecommendation (some j) name = getDefaultRecommendation name := by
    unfold parseRecommendation
    rw [parseAttempt_none_of_marker j xs hrec hmark, Option.getD_none]
  refine ⟨hmain, ?_, ?_⟩
  · intro r hr
    rw [hmain]
    unfold getDefaultRecommendation
    rw [hr]
    rfl
  · intro hnone
    rw [hmain]
    unfold getDefaultRecommendation
    rw [hnone]
    rfl

/-- A payload that echoes the prompt's template recipe names (in mixed case)
    while every other field is perfectly valid. -/
def templateEchoJson : Json :=
  .obj [("recipes", .arr [.str "Nama Resep Satu", .str "Sayur Asem"]),
        ("nutrition", mkNutrition "30 kkal/100g" ["Vitamin C"] ["Menyehatkan"]),
        ("storageTips", .str "Simpan di kulkas")]

/-- C6 witness: the mixed-case echo payload is rejected for "Tomato" and the
    Tomato catalog entry is returned. -/
theorem c6_nama_resep_always_rejected_witness :
    parseRecommendation (some templateEchoJson) "Tomato" = getDefaultRecommendation "Tomato" :=
  (c6_nama_resep_always_rejected templateEchoJson "Tomato"
    [.str "Nama Resep Satu", .str "Sayur Asem"] (by rfl)
    ⟨"Nama Resep Satu", List.mem_cons_self _ _, by rfl⟩).1

/-! ## Claim C10 -/

/-- C10: when the parsed payload's `recipes` field is a bare (truthy) string —
    whatever its content, including the placeholder markers — and the other
    two fields are truthy with a calorie field that does not trip the "XX"
    scan, the parser accepts and wraps the bare string into a one-element
    recipes list: no recipe placeholder check is applied to it. -/
theorem c10_bare_string_recipes_skips_placeholder_check (j : Json) (s : String) (n st : Json)
    (hrec : j.get "recipes" = some (.str s)) (hs : s ≠ "")
    (hn : j.get "nutrition" = some n) (hnt : n.truthy = true)
    (hst : j.get "storageTips" = some st) (hstt : st.truthy = true)
    (hcal : caloriesPlaceholderScan n = .ok false) :
    parseAttempt (some j) =
      some { recipes := [.str s], nutrition := n, storageTips := jsToString st } := by
  show parseBody j = _
  unfold parseBody
  rw [hrec, hn, hst]
  have htr : (optTruthy (some (.str s)) && optTruthy (some n) && optTruthy (some st)) = true := by
    simp only [optTruthy, Bool.and_eq_true]
    refine ⟨⟨?_, hnt⟩, hstt⟩
    simp [Json.truthy, hs]
  rw [if_pos htr]
  have hscan : isPlaceholderScan (.str s) n = .ok false := by
    unfold isPlaceholderScan
    simp [hcal, Bind.bind, Except.bind, pure, Except.pure]
  simp [hscan]

/-- A payload whose recipes field is the bare template string itself. -/
def bareStringRecipesJson : Json :=
  .obj [("recipes", .str "nama resep 1"),
        ("nutrition", mkNutrition "30 kkal/100g" ["Vitamin C"] ["Menyehatkan"]),
        ("storageTips", .str "Simpan di kulkas")]

/-- C10 witness: the bare string "nama resep 1" — which an array payload would
    get rejected for — is accepted and wrapped. -/
theorem c10_bare_string_recipes_skips_placeholder_check_witness :
    parseAttempt (some bareStringRecipesJson) =
      some { recipes := [.str "nama resep 1"],
             nutrition := mkNutrition "30 kkal/100g" ["Vitamin C"] ["Menyehatkan"],
             storageTips := "Simpan di kulkas" } :=
  c10_bare_string_recipes_skips_placeholder_check bareStringRecipesJson "nama resep 1"
    (mkNutrition "30 kkal/100g" ["Vitamin C"] ["Menyehatkan"]) (.str "Simpan di kulkas")
    (by rfl) (by decide) (by rfl) (by rfl) (by rfl) (by rfl) (by rfl)

/-! ## Concrete inputs shared by the gateway claims -/

def demoFile : IncomingFile :=
  { size := 1000, mimetype := "image/jpeg", originalname := "veg.jpg" }

def demoPrediction : Prediction :=
  { predicted_class := "Carrot", confidence := .num 1, top_3 := .arr [] }

def demoEnv : GatewayEnv := { skipLLM := true, production := false }

/-- A node-postgres connection failure thrown by `savePrediction`. -/
def dbFailure : JsErr := { message := "Connection terminated unexpectedly" }

/-- The axios error for an ML-service deadline overrun. -/
def mlTimeoutError : JsErr :=
  { code := some "ECONNABORTED", message := "timeout of 30000ms exceeded" }

/-- The axios error for a refused connection to the ML service. -/
def mlRefusedError : JsErr :=
  { code := some "ECONNREFUSED", message := "connect ECONNREFUSED 127.0.0.1:8000" }

/-- An axios transport error with no recognized code. -/
def mlGenericError : JsErr := { message := "socket hang up" }

/-- An 11MB JPEG upload. -/
def oversizedFile : IncomingFile :=
  { size := 11 * 1024 * 1024, mimetype := "image/jpeg", originalname := "big.jpg" }

/-! ## Claim C2 -/

/-- C2 counterexample: with a successful classification ("Carrot") and a
    computed recommendation in hand, a `savePrediction` failure makes the
    handler respond with the error middleware's 500 — the computed result is
    not returned to the caller. -/
theorem c2_persistence_error_counterexample :
    predictHandler (some demoFile) (.ok demoPrediction) (.success none) (.err dbFailure)
      demoEnv = ⟨500, .err "Connection terminated unexpectedly"⟩ := by
  rfl

/-- C2 (amended): any error thrown while persisting the record propagates via
    `next(error)` to the error-middleware chain (where `errorHandler` decides
    the response), so the request fails instead of returning the computed
    classification and recommendation. -/
theorem c2_persistence_error_fails_request (f : IncomingFile) (p : Prediction)
    (llmo : LLMOutcome) (e : JsErr) (env : GatewayEnv) :
    predictHandler (some f) (.ok p) llmo (.err e) env = gatewayErrorDispatch e env.production ∧
    gatewayErrorDispatch e env.production = errorHandler e env.production :=
  ⟨rfl, rfl⟩

/-! ## Claim C3 -/

/-- C3: an 11MB JPEG upload aborts in multer before any backend call (second
    component `false`), but the response is decided by `errorHandler` —
    registered before the multer middleware and never calling `next` — whose
    default branch yields 500, not the 413 that the (unreachable) multer
    middleware would produce. -/
theorem c3_oversize_gives_500_not_413 :
    (∀ (ml : MLOutcome) (llmo : LLMOutcome) (p : PersistOutcome) (env : GatewayEnv),
      predictRoute (some oversizedFile) ml llmo p env =
        (errorHandler fileSizeLimitError env.production, false)) ∧
    errorHandler fileSizeLimitError false = ⟨500, .err "File too large"⟩ ∧
    errorHandler fileSizeLimitError true = ⟨500, .err "Internal server error"⟩ ∧
    multerErrorMw fileSizeLimitError = some ⟨413, .err "File size exceeds 10MB limit"⟩ := by
  refine ⟨fun ml llmo p env => ?_, by rfl, by rfl, by rfl⟩
  rfl

/-! ## Claim C7 -/

/-- C7 counterexample: with no database configured, deleting a well-formed id
    responds 200 `\x7b success: true, deleted: \x7b id \x7d \x7d` (the stub
    `deletePrediction` returns a mock `\x7b id \x7d`), not the 404 of an
    always-empty store. -/
theorem c7_no_db_delete_counterexample :
    deleteHistory .disabled "aaaaaaaa-aaaa-aaaa-aaaa-aaaaaaaaaaaa" =
      (⟨200, .deleteOk "aaaaaaaa-aaaa-aaaa-aaaa-aaaaaaaaaaaa"⟩, .disabled, true) := by
  rfl

/-- C7 (amended): with no durable backend configured, the history list is
    empty for every limit/offset, while deletion of every well-formed id
    reports success (echoing the id as deleted) rather than 404. -/
theorem c7_no_db_list_empty_delete_succeeds (limit offset : Nat) (id : String)
    (h : isUuid id = true) :
    getPredictions .disabled limit offset = [] ∧
    getHistory .disabled limit offset = ⟨200, .historyList []⟩ ∧
    deleteHistory .disabled id = (⟨200, .deleteOk id⟩, .disabled, true) := by
  refine ⟨rfl, rfl, ?_⟩
  simp [deleteHistory, h, deletePrediction]

/-- C7 witness. -/
theorem c7_no_db_list_empty_delete_succeeds_witness :
    getPredictions .disabled 50 0 = [] ∧
    getHistory .disabled 50 0 = ⟨200, .historyList []⟩ ∧
    deleteHistory .disabled "123e4567-e89b-12d3-a456-426614174000" =
      (⟨200, .deleteOk "123e4567-e89b-12d3-a456-426614174000"⟩, .disabled, true) :=
  c7_no_db_list_empty_delete_succeeds 50 0 "123e4567-e89b-12d3-a456-426614174000" (by rfl)

/-! ## Claim C8 -/

/-- C8 counterexample: an ML-service deadline overrun (axios `ECONNABORTED`)
    is answered with 504 "Request timeout", not the claimed 502. -/
theorem c8_timeout_counterexample :
    predictHandler (some demoFile) (.error mlTimeoutError) (.success none) (.ok "id1" 0)
      demoEnv = ⟨504, .err "Request timeout"⟩ := by
  rfl

/-- C8 (amended): a refused connection to the classification backend yields
    502 `\x7b error: "ML service unavailable" \x7d` from the handler itself; every
    other classification transport error is rethrown to `errorHandler`, which
    maps a deadline overrun (`ECONNABORTED`/"timeout") to 504 `\x7b error:
    "Request timeout" \x7d` and an error with no recognized code to 500 with the
    error's message. -/
theorem c8_classification_error_mapping (f : IncomingFile) (llmo : LLMOutcome)
    (p : PersistOutcome) (env : GatewayEnv) (e : JsErr) :
    (e.code = some "ECONNREFUSED" →
      predictHandler (some f) (.error e) llmo p env = ⟨502, .err "ML service unavailable"⟩) ∧
    (e.code ≠ some "ECONNREFUSED" →
      predictHandler (some f) (.error e) llmo p env = errorHandler e env.production) ∧
    (e.name ≠ "ValidationError" → e.code = some "ECONNABORTED" →
      errorHandler e env.production = ⟨504, .err "Request timeout"⟩) ∧
    (e.name ≠ "ValidationError" → e.code = none → strIncludes e.message "timeout" = false →
      errorHandler e env.production =
        ⟨500, .err (if env.production then "Internal server error" else e.message)⟩) := by
  refine ⟨?_, ?_, ?_, ?_⟩
  · intro h
    simp [predictHandler, h]
  · intro h
    have hb : (e.code == some "ECONNREFUSED") = false := by
      simp [beq_iff_eq, h]
    simp only [predictHandler, hb, Bool.false_eq_true, if_false]
    rfl
  · intro h1 h2
    simp [errorHandler, beq_iff_eq, h1, h2]
  · intro h1 h2 h3
    simp [errorHandler, beq_iff_eq, h1, h2, h3]

/-- C8 witness: the three mappings at concrete axios errors. -/
theorem c8_classification_error_mapping_witness :
    predictHandler (some demoFile) (.error mlRefusedError) (.success none) (.ok "id1" 0)
      demoEnv = ⟨502, .err "ML service unavailable"⟩ ∧
    predictHandler (some demoFile) (.error mlTimeoutError) (.success none) (.ok "id1" 0)
      demoEnv = errorHandler mlTimeoutError false ∧
    errorHandler mlTimeoutError false = ⟨504, .err "Request timeout"⟩ ∧
    errorHandler mlGenericError false = ⟨500, .err "socket hang up"⟩ :=
  ⟨(c8_classification_error_mapping demoFile (.success none) (.ok "id1" 0) demoEnv
      mlRefusedError).1 rfl,
   (c8_classification_error_mapping demoFile (.success none) (.ok "id1" 0) demoEnv
      mlTimeoutError).2.1 (by decide),
   (c8_classification_error_mapping demoFile (.success none) (.ok "id1" 0) demoEnv
      mlTimeoutError).2.2.1 (by decide) rfl,
   (c8_classification_error_mapping demoFile (.success none) (.ok "id1" 0) demoEnv
      mlGenericError).2.2.2 (by decide) rfl (by rfl)⟩

/-! ## Claim C9 -/

/-- C9: with a configured store, DELETE /history/:id rejects a non-UUID id
    with 400 touching no storage and changing nothing; a well-formed id absent
    from the store yields 404 with an error body; a present id yields
    200 `\x7b success, deleted \x7d` and every row with that id is removed. -/
theorem c9_delete_history_cases (store : List DbRow) (id : String) :
    (isUuid id = false →
      deleteHistory (.enabled store) id =
        (⟨400, .err "Invalid ID format"⟩, .enabled store, false)) ∧
    (isUuid id = true → store.find? (fun r => r.id == id) = none →
      deleteHistory (.enabled store) id =
        (⟨404, .err "Prediction not found"⟩, .enabled store, true)) ∧
    (∀ row, isUuid id = true → store.find? (fun r => r.id == id) = some row →
      deleteHistory (.enabled store) id =
        (⟨200, .deleteOk row.id⟩, .enabled (store.filter (fun r => r.id != id)), true) ∧
      ∀ r ∈ store.filter (fun r => r.id != id), r.id ≠ id) := by
  refine ⟨?_, ?_, ?_⟩
  · intro h
    simp [deleteHistory, h]
  · intro hu hf
    simp [deleteHistory, hu, deletePrediction, hf]
  · intro row hu hf
    constructor
    · simp [deleteHistory, hu, deletePrediction, hf]
    · intro r hrmem
      rw [List.mem_filter] at hrmem
      have := hrmem.2
      simpa using this

/-- A demo stored prediction row. -/
def demoRow : DbRow :=
  { id := "123e4567-e89b-12d3-a456-426614174000", image_filename := "veg.jpg",
    image_path := "/uploads/u_veg.jpg", predicted_class := "Carrot",
    confidence := .num 1, top_3_predictions := .arr [],
    llm_recommendation := none, created_at := 5 }

/-- C9 witness: the three branches at concrete ids over a one-row store. -/
theorem c9_delete_history_cases_witness :
    deleteHistory (.enabled [demoRow]) "not-a-uuid" =
      (⟨400, .err "Invalid ID format"⟩, .enabled [demoRow], false) ∧
    deleteHistory (.enabled [demoRow]) "00000000-0000-0000-0000-000000000000" =
      (⟨404, .err "Prediction not found"⟩, .enabled [demoRow], true) ∧
    deleteHistory (.enabled [demoRow]) "123e4567-e89b-12d3-a456-426614174000" =
      (⟨200, .deleteOk "123e4567-e89b-12d3-a456-426614174000"⟩, .enabled [], true) :=
  ⟨(c9_delete_history_cases [demoRow] "not-a-uuid").1 (by rfl),
   (c9_delete_history_cases [demoRow] "00000000-0000-0000-0000-000000000000").2.1
     (by rfl) (by rfl),
   ((c9_delete_history_cases [demoRow] "123e4567-e89b-12d3-a456-426614174000").2.2
     demoRow (by rfl) (by rfl)).1⟩

end VegApp
